import Mathlib

/-!
Edge Monitor frontend — authenticated-request client, formal model.

Shallow embedding of the Edge Monitor browser client (`src/js/api.js`,
`src/js/auth.js`, `src/js/config.js`, `src/js/events.js`, and the dashboard
variant of `events.js`).  The JavaScript is asynchronous but single-threaded
and sequential per call chain, so each `async` function is modelled as a pure
state-passing function on a world `W` holding

* the browser `localStorage` (`Store` — the fixed keys the client uses),
* the backend, as a positional oracle: a queue of fetch outcomes, one entry
  consumed per `fetch` call (`none` models a transport-level rejection), and
* an event trace recording each `fetch` (with its URL), each invocation of
  the token-renewal routine `ensureValidAccessToken`, and each redirect.

A thrown JavaScript `Error` is modelled as `Except.error (JsErr.err msg)`
carrying the error message; `catch` blocks are `match` on the `Except`.
Response bodies are modelled as a pair of the raw text and the parsed JSON
value (parsing itself is not under test).
-/

/-- A JSON value, as delivered by `response.json()`. -/
inductive JsonV where
  | null
  | bool (b : Bool)
  | num (n : Int)
  | str (s : String)
  | obj (fields : List (String × JsonV))

/-- A thrown JavaScript `Error`, identified by its message. -/
inductive JsErr where
  | err (msg : String)
deriving Repr, DecidableEq

/-- An HTTP response: status code, text body (`response.text()`), and parsed
JSON body (`response.json()`). -/
structure Response where
  status : Nat
  body : String
  json : JsonV

/-- Field access `response.ok`: status in the inclusive range 200–299 (Fetch standard). -/
def Response.ok (r : Response) : Bool :=
  200 ≤ r.status && r.status ≤ 299

/-- The browser `localStorage`, restricted to the six keys the client uses:
`API_CONFIG.ACCESS_TOKEN_KEY` (`edge_monitor_access`),
`API_CONFIG.RENOVATE_TOKEN_KEY` (`edge_monitor_renovate`), and the four
user-metadata keys written by `login`.  `none` models an absent key
(`getItem` returning `null`). -/
structure Store where
  access : Option String
  renovate : Option String
  user_id : Option String
  username : Option String
  is_staff : Option String
  is_superuser : Option String
deriving Repr, DecidableEq

/-- Events observable in an execution. `fetch url` is one HTTP call,
`renew` is one invocation of `ensureValidAccessToken` (the token-renewal
routine of `auth.js`), `redirect t` is an assignment to
`window.location.href`. -/
inductive Ev where
  | fetch (url : String)
  | renew
  | redirect (target : String)
deriving Repr, DecidableEq

/-- The world: local storage, the queue of pending fetch outcomes (the
backend oracle; `none` = network failure, i.e. the `fetch` promise rejects),
and the trace of events so far. -/
structure W where
  store : Store
  net : List (Option Response)
  trace : List Ev

/-- JavaScript truthiness of a nullable string: `null` and `""` are falsy. -/
def truthyS : Option String → Bool
  | none => false
  | some s => !(s == "")

/-- JavaScript truthiness of a plain string: `""` is falsy. -/
def truthyStr (s : String) : Bool := !(s == "")

/-- Constant `API_CONFIG.BASE_URL` from `src/js/config.js`. -/
def BASE_URL : String := "http://localhost:8000"

/-- One `fetch` call: consumes the next oracle entry and logs the URL.  An
exhausted oracle or a `none` entry models the promise rejecting (transport
failure). -/
def doFetch (url : String) (w : W) : Except JsErr Response × W :=
  match w.net with
  | [] => (.error (.err "NetworkError"), { w with trace := w.trace ++ [.fetch url] })
  | o :: rest =>
    let w2 : W := { w with net := rest, trace := w.trace ++ [.fetch url] }
    match o with
    | none => (.error (.err "NetworkError"), w2)
    | some r => (.ok r, w2)

/-- JavaScript member access `j.k` on a parsed JSON value; `none` models
`undefined`. -/
def jsMember : JsonV → String → Option JsonV
  | .obj fields, k => fields.lookup k
  | _, _ => none

/-- JavaScript `String(x)` conversion, as used by `localStorage.setItem`
(arrays and objects are approximated; no claim depends on them). -/
def jsToString : Option JsonV → String
  | none => "undefined"
  | some .null => "null"
  | some (.bool b) => cond b "true" "false"
  | some (.num n) => toString n
  | some (.str s) => s
  | some (.obj _) => "[object Object]"

/-! Section: `src/js/auth.js` -/

/-- Function `saveToken(access, renovate)`: persist both tokens. -/
def saveToken (access renovate : String) (s : Store) : Store :=
  { s with access := some access, renovate := some renovate }

/-- Function `updateAccessToken(access)`: replace only the stored access token. -/
def updateAccessToken (access : String) (s : Store) : Store :=
  { s with access := some access }

/-- Function `getAccessToken()`. -/
def getAccessToken (s : Store) : Option String := s.access

/-- Function `getRenovateToken()`. -/
def getRenovateToken (s : Store) : Option String := s.renovate

/-- Function `login(username, password)` from `src/js/auth.js`: POST to the login
endpoint; on a non-ok response throw; on success persist the token pair and
the four user-metadata keys. -/
def login (username password : String) (w : W) : Except JsErr Unit × W :=
  match doFetch (BASE_URL ++ "/api/authentication/login/") w with
  | (.error e, w1) => (.error e, w1)
  | (.ok response, w1) =>
    if !response.ok then
      (.error (.err "Falha na autenticação"), w1)
    else
      let data := response.json
      let st := saveToken (jsToString (jsMember data "access"))
                          (jsToString (jsMember data "renovate")) w1.store
      let st := { st with
        user_id := some (jsToString (jsMember data "id")),
        username := some username,
        is_staff := some (jsToString (jsMember data "is_staff")),
        is_superuser := some (jsToString (jsMember data "is_superuser")) }
      (.ok (), { w1 with store := st })

/-- Function `renovateAccessToken()` from `src/js/auth.js`: throws when the renovate
token is absent/empty; otherwise POSTs to the renovate endpoint, throws on a
non-ok response, else stores and returns the fresh access token. -/
def renovateAccessToken (w : W) : Except JsErr String × W :=
  if !truthyS (getRenovateToken w.store) then
    (.error (.err "Renovate token ausente"), w)
  else
    match doFetch (BASE_URL ++ "/api/authentication/renovate/") w with
    | (.error e, w1) => (.error e, w1)
    | (.ok response, w1) =>
      if !response.ok then
        (.error (.err "Falha ao renovar access token"), w1)
      else
        let access := jsToString (jsMember response.json "access")
        (.ok access, { w1 with store := updateAccessToken access w1.store })

/-- Function `logout()` from `src/js/auth.js`: best-effort backend notification (its
result, including rejection, is ignored), then removal of all six stored
keys and redirect to `index.html`.  It never throws. -/
def logout (w : W) : Except JsErr Unit × W :=
  let w1 : W :=
    if truthyS (getRenovateToken w.store) then
      (doFetch (BASE_URL ++ "/api/authentication/logout/") w).2
    else w
  let st : Store :=
    { access := none, renovate := none, user_id := none,
      username := none, is_staff := none, is_superuser := none }
  (.ok (), { w1 with store := st, trace := w1.trace ++ [.redirect "index.html"] })

/-- Function `ensureValidAccessToken()` from `src/js/auth.js`: return the stored
access token if truthy; otherwise try `renovateAccessToken`, and on its
failure perform `logout` and throw `Sessão expirada`.  The `.renew` trace
event marks the invocation of this renewal routine. -/
def ensureValidAccessToken (w : W) : Except JsErr String × W :=
  let w0 : W := { w with trace := w.trace ++ [.renew] }
  let access := getAccessToken w0.store
  if truthyS access then (.ok (access.getD ""), w0)
  else
    match renovateAccessToken w0 with
    | (.ok t, w1) => (.ok t, w1)
    | (.error _, w1) =>
      (.error (.err "Sessão expirada"), (logout w1).2)

/-- Function `requestPasswordReset(email)` from `src/js/auth.js`. -/
def requestPasswordReset (w : W) : Except JsErr JsonV × W :=
  match doFetch (BASE_URL ++ "/api/authentication/password-reset/") w with
  | (.error e, w1) => (.error e, w1)
  | (.ok response, w1) =>
    if !response.ok then
      (.error (.err "Erro ao solicitar recuperação de senha"), w1)
    else
      (.ok response.json, w1)

/-- Function `confirmPasswordReset` (uid, token, password) from `src/js/auth.js`. -/
def confirmPasswordReset (w : W) : Except JsErr JsonV × W :=
  match doFetch (BASE_URL ++ "/api/authentication/password-reset/confirm/") w with
  | (.error e, w1) => (.error e, w1)
  | (.ok response, w1) =>
    if !response.ok then
      (.error (.err "Erro ao redefinir senha"), w1)
    else
      (.ok response.json, w1)

/-! Section: `src/js/api.js` -/

/-- Function `apiRequest(endpoint, options, retry)` from `src/js/api.js`.

The request's method, body and extra headers do not influence the control
flow (the backend is the oracle `W.net`), so they are not carried.  The
Authorization header is rebuilt from the store on each attempt, which the
oracle likewise does not inspect.

Control flow, line for line: fetch `BASE_URL + endpoint` (a rejection of
this first `await fetch` propagates); on `status === 401 && retry`, a `try`
block awaits `ensureValidAccessToken` and then executes
`return apiRequest(endpoint, options, false)` WITHOUT awaiting it — the
async function's promise merely adopts the inner one, so the `catch`
(which performs `logout()` and throws `Sessão expirada ou não autorizada`)
intercepts only a rejection of the awaited renewal call, never an error of
the retried attempt itself, which propagates to the caller unchanged;
otherwise a non-ok response throws `Erro <status>: <text or default>`, a
204 returns `null`, and anything else returns the parsed JSON body. -/
def apiRequest (endpoint : String) (retry : Bool) (w : W) : Except JsErr JsonV × W :=
  match doFetch (BASE_URL ++ endpoint) w with
  | (.error e, w1) => (.error e, w1)
  | (.ok response, w1) =>
    match retry, response.status == 401 with
    | true, true =>
      match ensureValidAccessToken w1 with
      | (.ok _, w2) =>
        apiRequest endpoint false w2
      | (.error _, w2) =>
        (.error (.err "Sessão expirada ou não autorizada"), (logout w2).2)
    | _, _ =>
      if !response.ok then
        (.error (.err ("Erro " ++ toString response.status ++ ": " ++
          (if response.body == "" then "Falha na requisição" else response.body))), w1)
      else if response.status == 204 then
        (.ok .null, w1)
      else
        (.ok response.json, w1)
termination_by (cond retry 1 0)
decreasing_by decide

/-- Function `apiGet(endpoint)`: `apiRequest` with method GET and the default
`retry = true`. -/
def apiGet (endpoint : String) (w : W) : Except JsErr JsonV × W :=
  apiRequest endpoint true w

/-! Section: `src/js/events.js` (monitoring filters) -/

/-- The `EventFilters` shape: each field absent (`undefined`) or a string. -/
structure EventFilters where
  start_date : Option String
  end_date : Option String
  mac_address : Option String

/-- UTF-8 encoding of one character, as a list of byte values. -/
def utf8Bytes (c : Char) : List Nat :=
  let n := c.toNat
  if n < 0x80 then [n]
  else if n < 0x800 then
    [0xC0 + n / 0x40, 0x80 + n % 0x40]
  else if n < 0x10000 then
    [0xE0 + n / 0x1000, 0x80 + (n / 0x40) % 0x40, 0x80 + n % 0x40]
  else
    [0xF0 + n / 0x40000, 0x80 + (n / 0x1000) % 0x40,
     0x80 + (n / 0x40) % 0x40, 0x80 + n % 0x40]

/-- Bytes (as `Nat` values) kept verbatim by the
`application/x-www-form-urlencoded` serializer used by
`URLSearchParams.toString()`: ASCII alphanumerics and `*`, `-`, `.`, `_`. -/
def urlKeepByte (b : Nat) : Bool :=
  (0x30 ≤ b && b ≤ 0x39) || (0x41 ≤ b && b ≤ 0x5A) || (0x61 ≤ b && b ≤ 0x7A) ||
  b == 0x2A || b == 0x2D || b == 0x2E || b == 0x5F

/-- Uppercase hexadecimal digit. -/
def hexDigit (n : Nat) : Char :=
  if n < 10 then Char.ofNat (0x30 + n) else Char.ofNat (0x41 + (n - 10))

/-- Percent-escape of one byte: `%XX` with uppercase hex. -/
def percentByte (b : Nat) : String :=
  "%" ++ String.singleton (hexDigit (b / 16)) ++ String.singleton (hexDigit (b % 16))

/-- The `application/x-www-form-urlencoded` serialization of one name or value,
per the WHATWG URL standard as implemented by `URLSearchParams.toString()`:
encode to UTF-8, keep unreserved bytes, turn space into `+`, percent-escape
the rest. -/
def formUrlEncode (s : String) : String :=
  String.join (s.data.map (fun c =>
    String.join ((utf8Bytes c).map (fun b =>
      if b == 0x20 then "+"
      else if urlKeepByte b then String.singleton (Char.ofNat b)
      else percentByte b))))

/-- Function `buildQueryString(filters)` from `src/js/events.js`: append, in order,
`start_date`, `end_date`, `mac_address` when truthy, serialize with
`URLSearchParams.toString()`, and prefix `?` when non-empty. -/
def buildQueryString (filters : EventFilters) : String :=
  let params : List (String × String) :=
    (if truthyS filters.start_date then [("start_date", filters.start_date.getD "")] else []) ++
    (if truthyS filters.end_date then [("end_date", filters.end_date.getD "")] else []) ++
    (if truthyS filters.mac_address then [("mac_address", filters.mac_address.getD "")] else [])
  let query := String.intercalate "&"
    (params.map (fun p => formUrlEncode p.1 ++ "=" ++ formUrlEncode p.2))
  if truthyStr query then "?" ++ query else ""

/-- Function `listEvents(filters)` from `src/js/events.js`. -/
def listEvents (filters : EventFilters) (w : W) : Except JsErr JsonV × W :=
  apiGet ("/api/monitoring/" ++ buildQueryString filters) w

/-! Section: dashboard variant of `events.js` -/

/-- Function `listDashboardEvents(startDate, endDate)` from the dashboard variant of
`events.js`: throws locally when either argument is falsy, else GETs
`/api/dashboard/` with both query parameters. -/
def listDashboardEvents (startDate endDate : String) (w : W) : Except JsErr JsonV × W :=
  if !truthyStr startDate || !truthyStr endDate then
    (.error (.err "start_date e end_date são obrigatórios"), w)
  else
    apiGet ("/api/dashboard/?start_date=" ++ startDate ++ "&end_date=" ++ endDate) w

/-- The store after `logout`'s teardown: all six keys removed. -/
def clearedStore : Store :=
  { access := none, renovate := none, user_id := none,
    username := none, is_staff := none, is_superuser := none }

/-- The four user-metadata entries of the store (`user_id`, `username`,
`is_staff`, `is_superuser`), as a tuple, for frame statements. -/
def metaKeys (s : Store) :
    Option String × Option String × Option String × Option String :=
  (s.user_id, s.username, s.is_staff, s.is_superuser)

/-! Section: helper lemmas -/

theorem string_append_ne_of_ne (a : String) {b c : String} (h : b ≠ c) :
    a ++ b ≠ a ++ c := by
  intro heq
  exact h (String.ext (by simpa using String.ext_iff.mp heq))

theorem doFetch_some (url : String) (s : Store) (r : Response)
    (rest : List (Option Response)) (tr : List Ev) :
    doFetch url ⟨s, some r :: rest, tr⟩ = (.ok r, ⟨s, rest, tr ++ [.fetch url]⟩) := rfl

theorem doFetch_none (url : String) (s : Store)
    (rest : List (Option Response)) (tr : List Ev) :
    doFetch url ⟨s, none :: rest, tr⟩ =
      (.error (.err "NetworkError"), ⟨s, rest, tr ++ [.fetch url]⟩) := rfl

theorem doFetch_nil (url : String) (s : Store) (tr : List Ev) :
    doFetch url ⟨s, [], tr⟩ =
      (.error (.err "NetworkError"), ⟨s, [], tr ++ [.fetch url]⟩) := rfl

theorem renovate_no_token (s : Store) (net : List (Option Response)) (tr : List Ev)
    (h : truthyS s.renovate = false) :
    renovateAccessToken ⟨s, net, tr⟩ =
      (.error (.err "Renovate token ausente"), ⟨s, net, tr⟩) := by
  simp [renovateAccessToken, getRenovateToken, h]

theorem renovate_ok (s : Store) (r : Response) (rest : List (Option Response)) (tr : List Ev)
    (h : truthyS s.renovate = true) (hok : r.ok = true) :
    renovateAccessToken ⟨s, some r :: rest, tr⟩ =
      (.ok (jsToString (jsMember r.json "access")),
       ⟨{ s with access := some (jsToString (jsMember r.json "access")) }, rest,
        tr ++ [.fetch (BASE_URL ++ "/api/authentication/renovate/")]⟩) := by
  simp [renovateAccessToken, getRenovateToken, h, doFetch_some, hok, updateAccessToken]

theorem renovate_bad_response (s : Store) (r : Response) (rest : List (Option Response))
    (tr : List Ev) (h : truthyS s.renovate = true) (hok : r.ok = false) :
    renovateAccessToken ⟨s, some r :: rest, tr⟩ =
      (.error (.err "Falha ao renovar access token"),
       ⟨s, rest, tr ++ [.fetch (BASE_URL ++ "/api/authentication/renovate/")]⟩) := by
  simp [renovateAccessToken, getRenovateToken, h, doFetch_some, hok]

theorem renovate_net_down (s : Store) (rest : List (Option Response))
    (tr : List Ev) (h : truthyS s.renovate = true) :
    renovateAccessToken ⟨s, none :: rest, tr⟩ =
      (.error (.err "NetworkError"),
       ⟨s, rest, tr ++ [.fetch (BASE_URL ++ "/api/authentication/renovate/")]⟩) := by
  simp [renovateAccessToken, getRenovateToken, h, doFetch_none]

theorem logout_with_token (s : Store) (net : List (Option Response)) (tr : List Ev)
    (h : truthyS s.renovate = true) :
    logout ⟨s, net, tr⟩ =
      (.ok (), ⟨clearedStore, net.tail,
        tr ++ [.fetch (BASE_URL ++ "/api/authentication/logout/"), .redirect "index.html"]⟩) := by
  cases net with
  | nil => simp [logout, getRenovateToken, h, doFetch_nil, clearedStore]
  | cons o rest =>
    cases o with
    | none => simp [logout, getRenovateToken, h, doFetch_none, clearedStore]
    | some r => simp [logout, getRenovateToken, h, doFetch_some, clearedStore]

theorem logout_without_token (s : Store) (net : List (Option Response)) (tr : List Ev)
    (h : truthyS s.renovate = false) :
    logout ⟨s, net, tr⟩ =
      (.ok (), ⟨clearedStore, net, tr ++ [.redirect "index.html"]⟩) := by
  simp [logout, getRenovateToken, h, clearedStore]

theorem ensure_with_access (s : Store) (net : List (Option Response)) (tr : List Ev)
    (h : truthyS s.access = true) :
    ensureValidAccessToken ⟨s, net, tr⟩ =
      (.ok (s.access.getD ""), ⟨s, net, tr ++ [.renew]⟩) := by
  simp [ensureValidAccessToken, getAccessToken, h]

theorem ensure_renew_ok (s : Store) (r : Response) (rest : List (Option Response))
    (tr : List Ev) (ha : truthyS s.access = false) (hr : truthyS s.renovate = true)
    (hok : r.ok = true) :
    ensureValidAccessToken ⟨s, some r :: rest, tr⟩ =
      (.ok (jsToString (jsMember r.json "access")),
       ⟨{ s with access := some (jsToString (jsMember r.json "access")) }, rest,
        tr ++ [.renew, .fetch (BASE_URL ++ "/api/authentication/renovate/")]⟩) := by
  simp [ensureValidAccessToken, getAccessToken, ha, renovate_ok _ _ _ _ hr hok]

theorem ensure_fail_no_token (s : Store) (net : List (Option Response)) (tr : List Ev)
    (ha : truthyS s.access = false) (hr : truthyS s.renovate = false) :
    ensureValidAccessToken ⟨s, net, tr⟩ =
      (.error (.err "Sessão expirada"),
       ⟨clearedStore, net, tr ++ [.renew, .redirect "index.html"]⟩) := by
  simp [ensureValidAccessToken, getAccessToken, ha, renovate_no_token _ _ _ hr,
    logout_without_token _ _ _ hr]

theorem ensure_fail_bad_response (s : Store) (r : Response) (rest : List (Option Response))
    (tr : List Ev) (ha : truthyS s.access = false) (hr : truthyS s.renovate = true)
    (hok : r.ok = false) :
    ensureValidAccessToken ⟨s, some r :: rest, tr⟩ =
      (.error (.err "Sessão expirada"),
       ⟨clearedStore, rest.tail,
        tr ++ [.renew, .fetch (BASE_URL ++ "/api/authentication/renovate/"),
               .fetch (BASE_URL ++ "/api/authentication/logout/"), .redirect "index.html"]⟩) := by
  simp [ensureValidAccessToken, getAccessToken, ha, renovate_bad_response _ _ _ _ hr hok,
    logout_with_token _ _ _ hr]

theorem ensure_fail_net_down (s : Store) (rest : List (Option Response))
    (tr : List Ev) (ha : truthyS s.access = false) (hr : truthyS s.renovate = true) :
    ensureValidAccessToken ⟨s, none :: rest, tr⟩ =
      (.error (.err "Sessão expirada"),
       ⟨clearedStore, rest.tail,
        tr ++ [.renew, .fetch (BASE_URL ++ "/api/authentication/renovate/"),
               .fetch (BASE_URL ++ "/api/authentication/logout/"), .redirect "index.html"]⟩) := by
  simp [ensureValidAccessToken, getAccessToken, ha, renovate_net_down _ _ _ hr,
    logout_with_token _ _ _ hr]

theorem apiRequest_no_retry (e : String) (s : Store) (r : Response)
    (rest : List (Option Response)) (tr : List Ev) :
    apiRequest e false ⟨s, some r :: rest, tr⟩ =
      (if !r.ok then
         .error (.err ("Erro " ++ toString r.status ++ ": " ++
           (if r.body == "" then "Falha na requisição" else r.body)))
       else if r.status == 204 then .ok .null
       else .ok r.json,
       ⟨s, rest, tr ++ [.fetch (BASE_URL ++ e)]⟩) := by
  rw [apiRequest]
  simp only [doFetch_some]
  rcases h : r.status == 401 with _ | _ <;> simp [h] <;> split_ifs <;> simp_all

theorem apiRequest_fetch_down (e : String) (retry : Bool) (s : Store) (tr : List Ev) :
    apiRequest e retry ⟨s, [], tr⟩ =
      (.error (.err "NetworkError"), ⟨s, [], tr ++ [.fetch (BASE_URL ++ e)]⟩) := by
  rw [apiRequest]
  simp [doFetch_nil]

theorem apiRequest_fetch_rejected (e : String) (retry : Bool) (s : Store)
    (rest : List (Option Response)) (tr : List Ev) :
    apiRequest e retry ⟨s, none :: rest, tr⟩ =
      (.error (.err "NetworkError"), ⟨s, rest, tr ++ [.fetch (BASE_URL ++ e)]⟩) := by
  rw [apiRequest]
  simp [doFetch_none]

theorem apiRequest_first_not401 (e : String) (s : Store) (r : Response)
    (rest : List (Option Response)) (tr : List Ev) (h : (r.status == 401) = false) :
    apiRequest e true ⟨s, some r :: rest, tr⟩ =
      (if !r.ok then
         .error (.err ("Erro " ++ toString r.status ++ ": " ++
           (if r.body == "" then "Falha na requisição" else r.body)))
       else if r.status == 204 then .ok .null
       else .ok r.json,
       ⟨s, rest, tr ++ [.fetch (BASE_URL ++ e)]⟩) := by
  rw [apiRequest]
  simp only [doFetch_some]
  simp [h] <;> split_ifs <;> simp_all

theorem apiRequest_retry_401 (e : String) (s : Store) (r : Response)
    (rest : List (Option Response)) (tr : List Ev) (h : (r.status == 401) = true) :
    apiRequest e true ⟨s, some r :: rest, tr⟩ =
      (match ensureValidAccessToken ⟨s, rest, tr ++ [.fetch (BASE_URL ++ e)]⟩ with
       | (.ok _, w2) => apiRequest e false w2
       | (.error _, w2) =>
         (.error (.err "Sessão expirada ou não autorizada"), (logout w2).2)) := by
  rw [apiRequest]
  simp [doFetch_some, h]

/-! Section: claims -/

/-- C5: for every call issued with a valid (truthy) stored access token whose
response has status 200, `apiRequest` returns the parsed JSON body of that
response, and the resulting trace shows no renewal invocation and no second
attempt (exactly one fetch, of the request's own URL); the store is
unchanged. -/
theorem apiRequest_200_returns_json (endpoint : String) (s : Store) (r : Response)
    (rest : List (Option Response)) (tr : List Ev)
    (htok : truthyS s.access = true) (hst : r.status = 200) :
    apiRequest endpoint true ⟨s, some r :: rest, tr⟩ =
      (.ok r.json, ⟨s, rest, tr ++ [.fetch (BASE_URL ++ endpoint)]⟩) := by
  rw [apiRequest_first_not401 _ _ _ _ _ (by simp [hst])]
  simp [Response.ok, hst]

/-- C5 witness. -/
theorem apiRequest_200_returns_json_witness :
    truthyS (Store.mk (some "tokA") (some "tokR") none none none none).access = true ∧
    (Response.mk 200 "" (.str "payload")).status = 200 ∧
    apiRequest "/api/user/" true
        ⟨⟨some "tokA", some "tokR", none, none, none, none⟩,
         [some ⟨200, "", .str "payload"⟩], []⟩ =
      (.ok (.str "payload"),
       ⟨⟨some "tokA", some "tokR", none, none, none, none⟩, [],
        [.fetch (BASE_URL ++ "/api/user/")]⟩) :=
  ⟨by decide, rfl,
   apiRequest_200_returns_json "/api/user/" _ _ _ _ (by decide) rfl⟩

/-- C6: for every call whose (first-attempt) response has status 204,
`apiRequest` returns `null`, regardless of the response's body text and JSON
content, with a single attempt and no renewal. -/
theorem apiRequest_204_returns_null (endpoint : String) (s : Store) (r : Response)
    (rest : List (Option Response)) (tr : List Ev) (hst : r.status = 204) :
    apiRequest endpoint true ⟨s, some r :: rest, tr⟩ =
      (.ok .null, ⟨s, rest, tr ++ [.fetch (BASE_URL ++ endpoint)]⟩) := by
  rw [apiRequest_first_not401 _ _ _ _ _ (by simp [hst])]
  simp [Response.ok, hst]

/-- C6 witness (a 204 with a non-empty body still yields `null`). -/
theorem apiRequest_204_returns_null_witness :
    (Response.mk 204 "ignored body" (.str "ignored")).status = 204 ∧
    apiRequest "/api/user/3/" true
        ⟨⟨some "tokA", none, none, none, none, none⟩,
         [some ⟨204, "ignored body", .str "ignored"⟩], []⟩ =
      (.ok .null,
       ⟨⟨some "tokA", none, none, none, none, none⟩, [],
        [.fetch (BASE_URL ++ "/api/user/3/")]⟩) :=
  ⟨rfl, apiRequest_204_returns_null "/api/user/3/" _ _ _ _ rfl⟩

/-- C8: `listDashboardEvents` with a falsy `startDate` or `endDate` fails
with the local validation error and returns the world unchanged: no fetch is
issued (trace unchanged) and the store is untouched. -/
theorem listDashboardEvents_missing_param (sd ed : String) (w : W)
    (h : truthyStr sd = false ∨ truthyStr ed = false) :
    listDashboardEvents sd ed w =
      (.error (.err "start_date e end_date são obrigatórios"), w) := by
  rcases h with h | h <;> simp [listDashboardEvents, h]

/-- C8 witness: `listDashboardEvents("", "2024-01-01")`. -/
theorem listDashboardEvents_missing_param_witness :
    (truthyStr "" = false ∨ truthyStr "2024-01-01" = false) ∧
    listDashboardEvents "" "2024-01-01"
        ⟨⟨some "tokA", some "tokR", none, none, none, none⟩,
         [some ⟨200, "", .null⟩], []⟩ =
      (.error (.err "start_date e end_date são obrigatórios"),
       ⟨⟨some "tokA", some "tokR", none, none, none, none⟩,
        [some ⟨200, "", .null⟩], []⟩) :=
  ⟨Or.inl (by decide),
   listDashboardEvents_missing_param "" "2024-01-01" _ (Or.inl (by decide))⟩

theorem eq_empty_of_length_eq_zero {a : String} (h : a.length = 0) : a = "" := by
  have hd : a.data = [] := List.length_eq_zero.mp (by rw [String.length_data]; exact h)
  exact String.ext (by rw [hd])

theorem truthyStr_append_left (a b : String) (h : truthyStr a = true) :
    truthyStr (a ++ b) = true := by
  simp only [truthyStr, Bool.not_eq_true', beq_eq_false_iff_ne, ne_eq] at h ⊢
  intro hab
  apply h
  have hlen := congrArg String.length hab
  simp only [String.length_append, show ("" : String).length = 0 from rfl] at hlen
  exact eq_empty_of_length_eq_zero (by omega)

theorem truthyStr_start_date_head (x : String) :
    truthyStr ("start_date" ++ x) = true :=
  truthyStr_append_left _ _ (by decide)

theorem truthyStr_mac_address_head (x : String) :
    truthyStr ("mac_address" ++ x) = true :=
  truthyStr_append_left _ _ (by decide)

/-- C7: the query-string builder appends present filters in the order
`start_date`, `end_date`, `mac_address`, percent-encodes names and values
with the `URLSearchParams` serialization, and contributes nothing for
absent filters; in particular `{mac_address: "AA:BB"}` with no dates gives
exactly `?mac_address=AA%3ABB`, and no filters give `""`. -/
theorem buildQueryString_order_and_encoding :
    buildQueryString ⟨none, none, some "AA:BB"⟩ = "?mac_address=AA%3ABB" ∧
    buildQueryString ⟨none, none, none⟩ = "" ∧
    (∀ mac : String, truthyStr mac = true →
      buildQueryString ⟨none, none, some mac⟩ =
        "?mac_address=" ++ formUrlEncode mac) ∧
    (∀ sd ed mac : String,
      truthyStr sd = true → truthyStr ed = true → truthyStr mac = true →
      buildQueryString ⟨some sd, some ed, some mac⟩ =
        "?start_date=" ++ formUrlEncode sd ++ "&end_date=" ++ formUrlEncode ed ++
          "&mac_address=" ++ formUrlEncode mac) := by
  refine ⟨by decide, by decide, ?_, ?_⟩
  · intro mac hmac
    have hmac' : ¬(mac = "") := by simpa [truthyStr] using hmac
    have hk : formUrlEncode "mac_address" = "mac_address" := by decide
    simp [buildQueryString, truthyS, hmac',
      List.nil_append, List.append_nil, List.map_cons, List.map_nil,
      String.intercalate, String.intercalate.go, hk, String.append_assoc,
      truthyStr_mac_address_head, if_pos]
    simp [← String.append_assoc]
  · intro sd ed mac hsd hed hmac
    have hsd' : ¬(sd = "") := by simpa [truthyStr] using hsd
    have hed' : ¬(ed = "") := by simpa [truthyStr] using hed
    have hmac' : ¬(mac = "") := by simpa [truthyStr] using hmac
    have hk1 : formUrlEncode "start_date" = "start_date" := by decide
    have hk2 : formUrlEncode "end_date" = "end_date" := by decide
    have hk3 : formUrlEncode "mac_address" = "mac_address" := by decide
    simp [buildQueryString, truthyS, hsd', hed', hmac',
      List.nil_append, List.append_nil, List.cons_append, List.map_cons, List.map_nil,
      String.intercalate, String.intercalate.go, hk1, hk2, hk3, String.append_assoc,
      truthyStr_start_date_head, if_pos]
    simp [← String.append_assoc]

/-- C7 witness: all three filters present, dates and MAC truthy. -/
theorem buildQueryString_order_and_encoding_witness :
    truthyStr "2024-01-01" = true ∧
    buildQueryString ⟨some "2024-01-01", some "2024-12-31", some "AA:BB"⟩ =
      "?start_date=" ++ formUrlEncode "2024-01-01" ++ "&end_date=" ++
        formUrlEncode "2024-12-31" ++ "&mac_address=" ++ formUrlEncode "AA:BB" :=
  ⟨by decide,
   buildQueryString_order_and_encoding.2.2.2 "2024-01-01" "2024-12-31" "AA:BB"
     (by decide) (by decide) (by decide)⟩

/-- C9: `logout` always resolves (never rejects) and always completes local
teardown — all six stored keys removed — for every world, including those
whose backend logout call fails (transport rejection or any response); the
best-effort call's failure is thereby suppressed.  By contrast, the other
operations surface their errors as rejections: a non-ok login response, a
missing renovate token, and a non-2xx non-401 API response each produce an
`error` result. -/
theorem logout_suppresses_backend_failure :
    (∀ w : W, (logout w).1 = .ok () ∧ (logout w).2.store = clearedStore) ∧
    (∀ (s : Store) (r : Response) (rest : List (Option Response)) (tr : List Ev)
       (u p : String), r.ok = false →
      (login u p ⟨s, some r :: rest, tr⟩).1 = .error (.err "Falha na autenticação")) ∧
    (∀ w : W, truthyS w.store.renovate = false →
      (renovateAccessToken w).1 = .error (.err "Renovate token ausente")) ∧
    (∀ (endpoint : String) (s : Store) (r : Response) (rest : List (Option Response))
       (tr : List Ev), r.ok = false → (r.status == 401) = false →
      (apiRequest endpoint true ⟨s, some r :: rest, tr⟩).1 =
        .error (.err ("Erro " ++ toString r.status ++ ": " ++
          (if r.body == "" then "Falha na requisição" else r.body)))) := by
  refine ⟨?_, ?_, ?_, ?_⟩
  · intro w
    obtain ⟨s, net, tr⟩ := w
    cases hr : truthyS s.renovate
    · rw [logout_without_token _ _ _ hr]
      exact ⟨rfl, rfl⟩
    · rw [logout_with_token _ _ _ hr]
      exact ⟨rfl, rfl⟩
  · intro s r rest tr u p hok
    simp [login, doFetch_some, hok]
  · intro w hr
    obtain ⟨s, net, tr⟩ := w
    rw [renovate_no_token _ _ _ hr]
  · intro endpoint s r rest tr hok h401
    rw [apiRequest_first_not401 _ _ _ _ _ h401]
    simp [hok]

/-- C9 witness: a logout whose backend call rejects (transport failure)
still tears down the session; the error-surfacing conjuncts at concrete
failing inputs. -/
theorem logout_suppresses_backend_failure_witness :
    ((logout ⟨⟨some "tokA", some "tokR", some "1", some "u", some "f", some "f"⟩,
        [none], []⟩).1 = .ok () ∧
     (logout ⟨⟨some "tokA", some "tokR", some "1", some "u", some "f", some "f"⟩,
        [none], []⟩).2.store = clearedStore) ∧
    (Response.mk 403 "forbidden" .null).ok = false ∧
    (login "u" "p" ⟨clearedStore, [some ⟨403, "forbidden", .null⟩], []⟩).1 =
      .error (.err "Falha na autenticação") :=
  ⟨logout_suppresses_backend_failure.1 _, by decide,
   logout_suppresses_backend_failure.2.1 _ _ _ _ "u" "p" (by decide)⟩

/-- C4: when the original attempt gets 401 and renewal succeeds (either the
stored access token is still present, or the renovate exchange succeeds) and
the retried attempt gets 200, the call returns the parsed JSON body of the
retried response, with exactly one renewal invocation and exactly two
attempts of the request's URL (the original and one retry). -/
theorem apiRequest_401_renew_retry_200 (endpoint : String) (s : Store)
    (r1 r2 : Response) (net2 rest : List (Option Response)) (tr : List Ev)
    (h1 : r1.status = 401) (h2 : r2.status = 200)
    (hcase :
      (truthyS s.access = true ∧ net2 = some r2 :: rest) ∨
      (∃ rr : Response, truthyS s.access = false ∧ truthyS s.renovate = true ∧
        rr.ok = true ∧ net2 = some rr :: some r2 :: rest))
    (hren : endpoint ≠ "/api/authentication/renovate/") :
    (apiRequest endpoint true ⟨s, some r1 :: net2, tr⟩).1 = .ok r2.json ∧
    ((apiRequest endpoint true ⟨s, some r1 :: net2, tr⟩).2.trace).count .renew =
      tr.count .renew + 1 ∧
    ((apiRequest endpoint true ⟨s, some r1 :: net2, tr⟩).2.trace).count
        (.fetch (BASE_URL ++ endpoint)) =
      tr.count (.fetch (BASE_URL ++ endpoint)) + 2 := by
  have hu : BASE_URL ++ endpoint ≠ BASE_URL ++ "/api/authentication/renovate/" :=
    string_append_ne_of_ne _ hren
  have hok2 : r2.ok = true := by simp [Response.ok, h2]
  rcases hcase with ⟨ha, hnet⟩ | ⟨rr, ha, hrt, hok, hnet⟩ <;> subst hnet
  · rw [apiRequest_retry_401 _ _ _ _ _ (by simp [h1])]
    simp [ensure_with_access _ _ _ ha, apiRequest_no_retry, hok2, h2,
      List.count_append]
  · rw [apiRequest_retry_401 _ _ _ _ _ (by simp [h1])]
    simp [ensure_renew_ok _ _ _ _ ha hrt hok, apiRequest_no_retry, hok2, h2,
      List.count_append, hu, Ne.symm hu]

/-- C4 witness: 401 then 200, with the stored access token still present. -/
theorem apiRequest_401_renew_retry_200_witness :
    (Response.mk 401 "expired" .null).status = 401 ∧
    (Response.mk 200 "" (.str "data")).status = 200 ∧
    (apiRequest "/api/user/" true
        ⟨⟨some "tokA", some "tokR", none, none, none, none⟩,
         [some ⟨401, "expired", .null⟩, some ⟨200, "", .str "data"⟩], []⟩).1 =
      .ok (.str "data") :=
  ⟨rfl, rfl,
   (apiRequest_401_renew_retry_200 "/api/user/" _ _ _ _ _ _ rfl rfl
     (Or.inl ⟨by decide, rfl⟩) (by decide)).1⟩

/-- C1, evaluated at the failing input: with both tokens stored and the
backend answering 401 to the original attempt and 401 again to the retried
attempt, the program does NOT raise the session-expired error and does NOT
tear the session down.  The retry at `src/js/api.js` line 85 is
`return apiRequest(endpoint, options, false)` without `await`, so the
`catch` never intercepts the returned promise's rejection: the retried
attempt's own generic HTTP error `Erro 401: expired` propagates to the
caller, `logout()` is never called, and both tokens stay stored — while the
claim, the spec's step 4, and the source's own doc comment ("se falhar,
encerra a sessão") all say `SessionExpiredError` plus session teardown.  The
trace also shows no third attempt is issued. -/
theorem apiRequest_double_401_http_error :
    apiRequest "/api/user/" true
        ⟨⟨some "tokA", some "tokR", none, none, none, none⟩,
         [some ⟨401, "expired", .null⟩, some ⟨401, "expired", .null⟩], []⟩ =
      (.error (.err "Erro 401: expired"),
       ⟨⟨some "tokA", some "tokR", none, none, none, none⟩, [],
        [.fetch (BASE_URL ++ "/api/user/"), .renew,
         .fetch (BASE_URL ++ "/api/user/")]⟩) := by
  rw [apiRequest_retry_401 _ _ _ _ _ (by decide)]
  rw [ensure_with_access _ _ _ (by decide)]
  simp [apiRequest_no_retry, Response.ok]
  decide

/-- C3: when the original attempt returns 401 and renewal fails (no truthy
access token, and either the renovate token is missing, or the renovate call
is rejected by the network, or the renovate response is non-ok), the stored
tokens are cleared (full teardown), the call fails with the session-expired
error, and no retry of the original request occurs: its URL is fetched
exactly once. -/
theorem apiRequest_401_renewal_failure (endpoint : String) (s : Store)
    (r1 : Response) (net2 : List (Option Response)) (tr : List Ev)
    (h1 : r1.status = 401) (ha : truthyS s.access = false)
    (hfail : truthyS s.renovate = false ∨
      (∃ rest, net2 = none :: rest) ∨
      (∃ (r2 : Response) (rest : List (Option Response)),
        r2.ok = false ∧ net2 = some r2 :: rest))
    (hren : endpoint ≠ "/api/authentication/renovate/")
    (hlog : endpoint ≠ "/api/authentication/logout/") :
    (apiRequest endpoint true ⟨s, some r1 :: net2, tr⟩).1 =
      .error (.err "Sessão expirada ou não autorizada") ∧
    (apiRequest endpoint true ⟨s, some r1 :: net2, tr⟩).2.store = clearedStore ∧
    ((apiRequest endpoint true ⟨s, some r1 :: net2, tr⟩).2.trace).count
        (.fetch (BASE_URL ++ endpoint)) =
      tr.count (.fetch (BASE_URL ++ endpoint)) + 1 := by
  have hu : BASE_URL ++ endpoint ≠ BASE_URL ++ "/api/authentication/renovate/" :=
    string_append_ne_of_ne _ hren
  have hu2 : BASE_URL ++ endpoint ≠ BASE_URL ++ "/api/authentication/logout/" :=
    string_append_ne_of_ne _ hlog
  rw [apiRequest_retry_401 _ _ _ _ _ (by simp [h1])]
  rcases hfail with hrt | ⟨rest, hnet⟩ | ⟨r2, rest, hok2, hnet⟩
  · simp [ensure_fail_no_token _ _ _ ha hrt, logout_without_token, truthyS,
      clearedStore, List.count_append]
  · subst hnet
    cases hrt : truthyS s.renovate
    · simp [ensure_fail_no_token _ _ _ ha hrt, logout_without_token, truthyS,
        clearedStore, List.count_append]
    · simp [ensure_fail_net_down _ _ _ ha hrt, logout_without_token, truthyS,
        clearedStore, List.count_append, hu, Ne.symm hu, hu2, Ne.symm hu2]
  · subst hnet
    cases hrt : truthyS s.renovate
    · simp [ensure_fail_no_token _ _ _ ha hrt, logout_without_token, truthyS,
        clearedStore, List.count_append]
    · simp [ensure_fail_bad_response _ _ _ _ ha hrt hok2, logout_without_token, truthyS,
        clearedStore, List.count_append, hu, Ne.symm hu, hu2, Ne.symm hu2]

/-- C3 witness: 401 with no stored tokens at all, so renewal fails. -/
theorem apiRequest_401_renewal_failure_witness :
    (Response.mk 401 "expired" .null).status = 401 ∧
    truthyS (none : Option String) = false ∧
    (apiRequest "/api/user/" true
        ⟨⟨none, none, none, none, none, none⟩, [some ⟨401, "expired", .null⟩], []⟩).1 =
      .error (.err "Sessão expirada ou não autorizada") ∧
    (apiRequest "/api/user/" true
        ⟨⟨none, none, none, none, none, none⟩, [some ⟨401, "expired", .null⟩], []⟩).2.store =
      clearedStore :=
  ⟨rfl, by decide,
   (apiRequest_401_renewal_failure "/api/user/" ⟨none, none, none, none, none, none⟩
      ⟨401, "expired", .null⟩ [] [] rfl (by decide)
      (Or.inl (by decide)) (by decide) (by decide)).1,
   (apiRequest_401_renewal_failure "/api/user/" ⟨none, none, none, none, none, none⟩
      ⟨401, "expired", .null⟩ [] [] rfl (by decide)
      (Or.inl (by decide)) (by decide) (by decide)).2.1⟩

theorem logout_count_fetch (u : String) (w : W)
    (hu : u ≠ BASE_URL ++ "/api/authentication/logout/") :
    ((logout w).2.trace).count (.fetch u) = w.trace.count (.fetch u) := by
  obtain ⟨s, net, tr⟩ := w
  cases hr : truthyS s.renovate
  · rw [logout_without_token _ _ _ hr]
    simp [List.count_append]
  · rw [logout_with_token _ _ _ hr]
    simp [List.count_append, List.count_cons, List.count_nil, Ne.symm hu]

theorem renovate_count_fetch (u : String) (w : W)
    (hu : u ≠ BASE_URL ++ "/api/authentication/renovate/") :
    ((renovateAccessToken w).2.trace).count (.fetch u) = w.trace.count (.fetch u) := by
  obtain ⟨s, net, tr⟩ := w
  cases hr : truthyS s.renovate
  · rw [renovate_no_token _ _ _ hr]
  · cases net with
    | nil =>
      simp [renovateAccessToken, getRenovateToken, hr, doFetch_nil,
        List.count_append, List.count_cons, List.count_nil, Ne.symm hu]
    | cons o rest =>
      cases o with
      | none =>
        rw [renovate_net_down _ _ _ hr]
        simp [List.count_append, List.count_cons, List.count_nil, Ne.symm hu]
      | some r =>
        cases hok : r.ok
        · rw [renovate_bad_response _ _ _ _ hr hok]
          simp [List.count_append, List.count_cons, List.count_nil, Ne.symm hu]
        · rw [renovate_ok _ _ _ _ hr hok]
          simp [List.count_append, List.count_cons, List.count_nil, Ne.symm hu]

theorem ensure_count_fetch (u : String) (w : W)
    (hu1 : u ≠ BASE_URL ++ "/api/authentication/renovate/")
    (hu2 : u ≠ BASE_URL ++ "/api/authentication/logout/") :
    ((ensureValidAccessToken w).2.trace).count (.fetch u) =
      w.trace.count (.fetch u) := by
  obtain ⟨s, net, tr⟩ := w
  cases ha : truthyS s.access
  · have hbase := renovate_count_fetch u ⟨s, net, tr ++ [.renew]⟩ hu1
    simp only [ensureValidAccessToken, getAccessToken, ha, Bool.false_eq_true,
      if_false]
    rcases hX : renovateAccessToken ⟨s, net, tr ++ [.renew]⟩ with ⟨res, w1⟩
    rw [hX] at hbase
    rw [hX]
    cases res with
    | ok t => simpa [List.count_append] using hbase
    | error e =>
      have hlog := logout_count_fetch u w1 hu2
      simp only [hlog]
      simpa [List.count_append] using hbase
  · rw [ensure_with_access _ _ _ ha]
    simp [List.count_append]

theorem apiRequest_no_retry_frame (e : String) (w : W) :
    (apiRequest e false w).2.trace = w.trace ++ [.fetch (BASE_URL ++ e)] := by
  obtain ⟨s, net, tr⟩ := w
  cases net with
  | nil => rw [apiRequest_fetch_down]
  | cons o rest =>
    cases o with
    | none => rw [apiRequest_fetch_rejected]
    | some r =>
      rw [apiRequest_no_retry]

/-- C2: for every outbound call and every backend oracle (any sequence of
responses, however many 401s it contains), `apiRequest` fetches the
request's own URL at most twice in total: the original attempt plus at most
one retry. -/
theorem apiRequest_at_most_two_attempts (e : String) (w : W)
    (hren : e ≠ "/api/authentication/renovate/")
    (hlog : e ≠ "/api/authentication/logout/") :
    ((apiRequest e true w).2.trace).count (.fetch (BASE_URL ++ e)) ≤
      w.trace.count (.fetch (BASE_URL ++ e)) + 2 := by
  have hu1 : BASE_URL ++ e ≠ BASE_URL ++ "/api/authentication/renovate/" :=
    string_append_ne_of_ne _ hren
  have hu2 : BASE_URL ++ e ≠ BASE_URL ++ "/api/authentication/logout/" :=
    string_append_ne_of_ne _ hlog
  obtain ⟨s, net, tr⟩ := w
  cases net with
  | nil =>
    rw [apiRequest_fetch_down]
    simp [List.count_append]
  | cons o rest =>
    cases o with
    | none =>
      rw [apiRequest_fetch_rejected]
      simp [List.count_append]
    | some r =>
      cases h401 : r.status == 401
      · rw [apiRequest_first_not401 _ _ _ _ _ h401]
        simp [List.count_append]
      · rw [apiRequest_retry_401 _ _ _ _ _ h401]
        have hens := ensure_count_fetch (BASE_URL ++ e)
          ⟨s, rest, tr ++ [.fetch (BASE_URL ++ e)]⟩ hu1 hu2
        rcases hE : ensureValidAccessToken ⟨s, rest, tr ++ [.fetch (BASE_URL ++ e)]⟩
          with ⟨res, w2⟩
        rw [hE] at hens
        rw [hE]
        simp only [List.count_append] at hens
        cases res with
        | error el =>
          have hlo := logout_count_fetch (BASE_URL ++ e) w2 hu2
          simp only [hlo, hens, List.count_append]
          simp
        | ok t =>
          rcases hA : apiRequest e false w2 with ⟨res3, w3⟩
          have hframe : w3.trace = w2.trace ++ [.fetch (BASE_URL ++ e)] := by
            have hfr := apiRequest_no_retry_frame e w2
            rw [hA] at hfr
            exact hfr
          simp only [hA]
          cases res3 with
          | ok v =>
            simp only [hframe, List.count_append, hens]
            simp
          | error e3 =>
            have hlo := logout_count_fetch (BASE_URL ++ e) w3 hu2
            simp only [hlo, hframe, List.count_append, hens]
            simp

/-- C2 witness: an oracle that keeps answering 401 still yields at most two
attempts. -/
theorem apiRequest_at_most_two_attempts_witness :
    ("/api/user/" ≠ "/api/authentication/renovate/") ∧
    ("/api/user/" ≠ "/api/authentication/logout/") ∧
    ((apiRequest "/api/user/" true
        ⟨⟨some "tokA", some "tokR", none, none, none, none⟩,
         [some ⟨401, "a", .null⟩, some ⟨401, "b", .null⟩, some ⟨401, "c", .null⟩,
          some ⟨401, "d", .null⟩], []⟩).2.trace).count
        (.fetch (BASE_URL ++ "/api/user/")) ≤
      ([] : List Ev).count (.fetch (BASE_URL ++ "/api/user/")) + 2 :=
  ⟨by decide, by decide,
   apiRequest_at_most_two_attempts "/api/user/" _ (by decide) (by decide)⟩

theorem apiRequest_no_retry_store (e : String) (w : W) :
    (apiRequest e false w).2.store = w.store := by
  obtain ⟨s, net, tr⟩ := w
  cases net with
  | nil => rw [apiRequest_fetch_down]
  | cons o rest =>
    cases o with
    | none => rw [apiRequest_fetch_rejected]
    | some r => rw [apiRequest_no_retry]

theorem logout_clears_store (w : W) : (logout w).2.store = clearedStore := by
  obtain ⟨s, net, tr⟩ := w
  cases hr : truthyS s.renovate
  · rw [logout_without_token _ _ _ hr]
  · rw [logout_with_token _ _ _ hr]

theorem metaKeys_renovate (w : W) :
    metaKeys (renovateAccessToken w).2.store = metaKeys w.store := by
  obtain ⟨s, net, tr⟩ := w
  cases hr : truthyS s.renovate
  · rw [renovate_no_token _ _ _ hr]
  · cases net with
    | nil => simp [renovateAccessToken, getRenovateToken, hr, doFetch_nil]
    | cons o rest =>
      cases o with
      | none => rw [renovate_net_down _ _ _ hr]
      | some r =>
        cases hok : r.ok
        · rw [renovate_bad_response _ _ _ _ hr hok]
        · rw [renovate_ok _ _ _ _ hr hok]
          simp [metaKeys]

theorem metaKeys_ensure (w : W) :
    metaKeys (ensureValidAccessToken w).2.store = metaKeys w.store ∨
      (ensureValidAccessToken w).2.store = clearedStore := by
  obtain ⟨s, net, tr⟩ := w
  cases ha : truthyS s.access
  · have hre := metaKeys_renovate ⟨s, net, tr ++ [.renew]⟩
    simp only [ensureValidAccessToken, getAccessToken, ha, Bool.false_eq_true,
      if_false]
    rcases hX : renovateAccessToken ⟨s, net, tr ++ [.renew]⟩ with ⟨res, w1⟩
    rw [hX] at hre
    rw [hX]
    cases res with
    | ok t =>
      left
      simpa using hre
    | error e =>
      right
      simpa using logout_clears_store w1
  · rw [ensure_with_access _ _ _ ha]
    left
    rfl

theorem metaKeys_apiRequest (e : String) (retry : Bool) (w : W) :
    metaKeys (apiRequest e retry w).2.store = metaKeys w.store ∨
      (apiRequest e retry w).2.store = clearedStore := by
  obtain ⟨s, net, tr⟩ := w
  cases net with
  | nil =>
    rw [apiRequest_fetch_down]
    left
    rfl
  | cons o rest =>
    cases o with
    | none =>
      rw [apiRequest_fetch_rejected]
      left
      rfl
    | some r =>
      cases retry
      · rw [apiRequest_no_retry]
        left
        rfl
      · cases h401 : r.status == 401
        · rw [apiRequest_first_not401 _ _ _ _ _ h401]
          left
          rfl
        · rw [apiRequest_retry_401 _ _ _ _ _ h401]
          have hens := metaKeys_ensure ⟨s, rest, tr ++ [.fetch (BASE_URL ++ e)]⟩
          rcases hE : ensureValidAccessToken ⟨s, rest, tr ++ [.fetch (BASE_URL ++ e)]⟩
            with ⟨res, w2⟩
          rw [hE] at hens
          rw [hE]
          cases res with
          | error el =>
            right
            simpa using logout_clears_store w2
          | ok t =>
            rcases hA : apiRequest e false w2 with ⟨res3, w3⟩
            have hfr : w3.store = w2.store := by
              have hst := apiRequest_no_retry_store e w2
              rw [hA] at hst
              exact hst
            simp only [hA]
            rcases hens with h | h
            · left
              simpa [metaKeys, hfr] using h
            · right
              simpa [hfr] using h

theorem requestPasswordReset_store (w : W) :
    (requestPasswordReset w).2.store = w.store := by
  obtain ⟨s, net, tr⟩ := w
  cases net with
  | nil => simp [requestPasswordReset, doFetch_nil]
  | cons o rest =>
    cases o with
    | none => simp [requestPasswordReset, doFetch_none]
    | some r =>
      cases hok : r.ok
      · simp [requestPasswordReset, doFetch_some, hok]
      · simp [requestPasswordReset, doFetch_some, hok]

theorem confirmPasswordReset_store (w : W) :
    (confirmPasswordReset w).2.store = w.store := by
  obtain ⟨s, net, tr⟩ := w
  cases net with
  | nil => simp [confirmPasswordReset, doFetch_nil]
  | cons o rest =>
    cases o with
    | none => simp [confirmPasswordReset, doFetch_none]
    | some r =>
      cases hok : r.ok
      · simp [confirmPasswordReset, doFetch_some, hok]
      · simp [confirmPasswordReset, doFetch_some, hok]

/-- C10 counterexample: `ensureValidAccessToken` — an operation other than
`login` and `logout` — changes the `user_id` metadata key (it invokes
`logout`'s teardown when renewal is impossible), so "no other operation of
the client touches these metadata keys" is false as stated. -/
theorem metadata_touched_outside_login_logout :
    (ensureValidAccessToken
        ⟨⟨none, none, some "7", some "alice", some "true", some "false"⟩, [], []⟩).2.store.user_id ≠
      some "7" := by decide

/-- C10 (amended): `login` on an ok response writes the four user-metadata
keys together with the token pair; `logout` removes all six keys; and every
other operation of the client either leaves the metadata keys unchanged or
removes all six at once by performing `logout`'s session teardown
(`apiRequest` and `ensureValidAccessToken` invoke `logout` on unrecoverable
auth failure); no operation other than `login` writes them. -/
theorem login_logout_metadata_frame :
    (∀ (u p : String) (s : Store) (r : Response) (rest : List (Option Response))
       (tr : List Ev), r.ok = true →
      (login u p ⟨s, some r :: rest, tr⟩).2.store =
        { access := some (jsToString (jsMember r.json "access")),
          renovate := some (jsToString (jsMember r.json "renovate")),
          user_id := some (jsToString (jsMember r.json "id")),
          username := some u,
          is_staff := some (jsToString (jsMember r.json "is_staff")),
          is_superuser := some (jsToString (jsMember r.json "is_superuser")) }) ∧
    (∀ w : W, (logout w).2.store = clearedStore) ∧
    (∀ (e : String) (retry : Bool) (w : W),
      metaKeys (apiRequest e retry w).2.store = metaKeys w.store ∨
        (apiRequest e retry w).2.store = clearedStore) ∧
    (∀ w : W, metaKeys (renovateAccessToken w).2.store = metaKeys w.store) ∧
    (∀ w : W, metaKeys (ensureValidAccessToken w).2.store = metaKeys w.store ∨
        (ensureValidAccessToken w).2.store = clearedStore) ∧
    (∀ w : W, (requestPasswordReset w).2.store = w.store) ∧
    (∀ w : W, (confirmPasswordReset w).2.store = w.store) ∧
    (∀ (sd ed : String) (w : W),
      metaKeys (listDashboardEvents sd ed w).2.store = metaKeys w.store ∨
        (listDashboardEvents sd ed w).2.store = clearedStore) ∧
    (∀ (f : EventFilters) (w : W),
      metaKeys (listEvents f w).2.store = metaKeys w.store ∨
        (listEvents f w).2.store = clearedStore) := by
  refine ⟨?_, logout_clears_store, metaKeys_apiRequest, metaKeys_renovate,
    metaKeys_ensure, requestPasswordReset_store, confirmPasswordReset_store,
    ?_, ?_⟩
  · intro u p s r rest tr hok
    simp [login, doFetch_some, hok, saveToken]
  · intro sd ed w
    cases hc : (!truthyStr sd || !truthyStr ed)
    · simp only [listDashboardEvents, hc, Bool.false_eq_true, if_false, apiGet]
      exact metaKeys_apiRequest _ _ _
    · simp [listDashboardEvents, hc]
  · intro f w
    simp only [listEvents, apiGet]
    exact metaKeys_apiRequest _ _ _

/-- C10 witness (for the amended claim): a successful login writes the six
keys; the metadata frame of a plain GET with a 200 answer. -/
theorem login_logout_metadata_frame_witness :
    (Response.mk 200 ""
        (.obj [("access", .str "a1"), ("renovate", .str "r1"), ("id", .num 7),
               ("is_staff", .bool true), ("is_superuser", .bool false)])).ok = true ∧
    (login "alice" "pw"
        ⟨clearedStore,
         [some ⟨200, "",
           .obj [("access", .str "a1"), ("renovate", .str "r1"), ("id", .num 7),
                 ("is_staff", .bool true), ("is_superuser", .bool false)]⟩], []⟩).2.store =
      { access := some (jsToString (jsMember (.obj [("access", .str "a1"),
          ("renovate", .str "r1"), ("id", .num 7), ("is_staff", .bool true),
          ("is_superuser", .bool false)]) "access")),
        renovate := some (jsToString (jsMember (.obj [("access", .str "a1"),
          ("renovate", .str "r1"), ("id", .num 7), ("is_staff", .bool true),
          ("is_superuser", .bool false)]) "renovate")),
        user_id := some (jsToString (jsMember (.obj [("access", .str "a1"),
          ("renovate", .str "r1"), ("id", .num 7), ("is_staff", .bool true),
          ("is_superuser", .bool false)]) "id")),
        username := some "alice",
        is_staff := some (jsToString (jsMember (.obj [("access", .str "a1"),
          ("renovate", .str "r1"), ("id", .num 7), ("is_staff", .bool true),
          ("is_superuser", .bool false)]) "is_staff")),
        is_superuser := some (jsToString (jsMember (.obj [("access", .str "a1"),
          ("renovate", .str "r1"), ("id", .num 7), ("is_staff", .bool true),
          ("is_superuser", .bool false)]) "is_superuser")) } :=
  ⟨rfl,
   login_logout_metadata_frame.1 "alice" "pw" clearedStore _ _ _ rfl⟩
